import Mathlib

/-!
Verification of the Consumer-Referral dual-source resolution and failover
subsystem, shallowly embedded from the Python sources:

* `services/datasource_service.py` — the two-state source router
  (`DataSourceService`, spec name `DataSourceRouter`);
* `services/kafka_service.py` — the stream ingestion monitor
  (`KafkaService` / `KafkaCoordinatorWarningHandler`);
* `services/redis_service.py` — the cache store (`RedisService`);
* `services/rds_service.py` — the relational failover store (`RDSService`);
* `services/trino_service.py` — the bulk source (`TrinoService`);
* `services/sync_service.py` — the reconciler (`SyncService`);
* `services/parallel_fetch_service.py` — the race fetcher
  (`ParallelFetchService`).

Python dictionaries that cross component boundaries are embedded as
association lists of string keys and tagged values, so that presence or
absence of a key (e.g. `consumer_token`) is observable.  Wall-clock times
(`time.time()`, `datetime.utcnow()`) are embedded as integers; the code only
compares differences of times against constants.  Concurrency is embedded by
making the atomic read/write steps of a method explicit and composing them in
a chosen interleaving, and by passing the nondeterministic completion order
of an `asyncio` race as an explicit parameter.
-/

namespace ConsumerReferral

/-! ## Python dict values -/

/-- A Python value as it occurs in the record dictionaries of this service:
an integer, a string, or `None`. -/
inductive DVal where
  | vnat (n : Nat)
  | vstr (s : String)
  | vnone
deriving DecidableEq, Repr

/-- A Python dict with string keys, embedded as an association list
(insertion order preserved, as in CPython). -/
abbrev Dict := List (String × DVal)

/-- `d.get(k)` / `d[k]` lookup on a dict: first binding of the key. -/
def dget (d : Dict) (k : String) : Option DVal :=
  (d.find? (fun p => p.1 == k)).map (fun p => p.2)

/-- Python truthiness of an optional dict: `None` and the empty dict are
falsy, any non-empty dict is truthy. -/
def truthy : Option Dict → Bool
  | none => false
  | some d => !d.isEmpty

/-! ## DataSourceService (`services/datasource_service.py`)

`DataSource` is the two-valued enum `{LAKE, RDS}`; the service holds the
current source and an optional switch timestamp.  The switch methods return a
status dict; we embed the `status` field (the spec's `SwitchResult.status`)
together with the successor state. -/

/-- `DataSource` enum: `LAKE = "lake"` (Trino + Kafka), `RDS = "rds"`. -/
inductive DataSource where
  | lake
  | rds
deriving DecidableEq, Repr

/-- String value of the enum member, as serialized into response dicts. -/
def DataSource.value : DataSource → String
  | .lake => "lake"
  | .rds => "rds"

/-- Mutable state of `DataSourceService`: `_current_source` (initially
`LAKE`) and `_switch_timestamp` (initially `None`). -/
structure DataSourceState where
  currentSource : DataSource
  switchTimestamp : Option Int
deriving DecidableEq, Repr

/-- Initial router state built by `DataSourceService.__init__`. -/
def DataSourceState.init : DataSourceState :=
  { currentSource := .lake, switchTimestamp := none }

/-- `DataSourceService.switch_to_rds` (lines 32–52), run atomically:
if RDS is already current, return `"already_active"` and leave the state
alone; otherwise set the source to RDS, record the timestamp `now`, and
return `"switched"`. -/
def switch_to_rds (now : Int) (s : DataSourceState) : String × DataSourceState :=
  if s.currentSource = DataSource.rds then
    ("already_active", s)
  else
    ("switched", { currentSource := .rds, switchTimestamp := some now })

/-- `DataSourceService.switch_to_lake` (lines 54–74), run atomically. -/
def switch_to_lake (now : Int) (s : DataSourceState) : String × DataSourceState :=
  if s.currentSource = DataSource.lake then
    ("already_active", s)
  else
    ("switched", { currentSource := .lake, switchTimestamp := some now })

/-- The guard read of `switch_to_rds` (line 34): the method first reads
`self._current_source` and compares it with `DataSource.RDS`.  The method
takes no lock, so between this read and the writes below, steps of another
thread may run. -/
def switch_to_rds_guard (s : DataSourceState) : Bool :=
  s.currentSource = DataSource.rds

/-- The mutation steps of `switch_to_rds` (lines 42–43): write
`_current_source = RDS`, then `_switch_timestamp = now`. -/
def switch_to_rds_commit (now : Int) (_s : DataSourceState) : DataSourceState :=
  { currentSource := .rds, switchTimestamp := some now }

/-- Two concurrent, unsynchronized calls of `switch_to_rds` (threads T1 at
time `t1`, T2 at time `t2`) in the interleaving
guard(T1); guard(T2); commit(T1); commit(T2) — possible because
`DataSourceService` holds no lock and acquires no in-flight-switch guard.
Returns (status of T1, status of T2, final shared state). -/
def twoConcurrentSwitchToRds (t1 t2 : Int) (s0 : DataSourceState) :
    String × String × DataSourceState :=
  let g1 := switch_to_rds_guard s0
  let g2 := switch_to_rds_guard s0
  if g1 then
    if g2 then ("already_active", "already_active", s0)
    else ("already_active", "switched", switch_to_rds_commit t2 s0)
  else
    let s1 := switch_to_rds_commit t1 s0
    if g2 then ("switched", "already_active", s1)
    else ("switched", "switched", switch_to_rds_commit t2 s1)

/-! ## KafkaService health state (`services/kafka_service.py`)

The fields of `KafkaService` that `health_check` and the warning handler
read or write.  `consumerConnected` embeds `self.consumer is not None`. -/

/-- Health-relevant state of `KafkaService`: `consumer is not None`,
`running`, `consecutive_errors`, `max_consecutive_errors` (3 in
`__init__`), `_failover_triggered`. -/
structure KafkaState where
  consumerConnected : Bool
  running : Bool
  consecutiveErrors : Nat
  maxConsecutiveErrors : Nat
  failoverTriggered : Bool
deriving DecidableEq, Repr

/-- `KafkaService.health_check` (lines 240–250): `consumer is not None and
running and consecutive_errors < max_consecutive_errors and not
_failover_triggered`. -/
def health_check (s : KafkaState) : Bool :=
  s.consumerConnected && s.running
    && decide (s.consecutiveErrors < s.maxConsecutiveErrors)
    && !s.failoverTriggered

/-- Modelled from the spec's words (for comparison with `health_check`):
"`healthCheck() -> bool` reports
`running && consecutiveErrors < max && !failoverTriggered`". -/
def healthCheckSpec (s : KafkaState) : Bool :=
  s.running && decide (s.consecutiveErrors < s.maxConsecutiveErrors)
    && !s.failoverTriggered

/-! ## KafkaCoordinatorWarningHandler (`services/kafka_service.py`, lines 18–63)

A `logging.Handler` attached to the `kafka` logger.  Its `emit` method reads
the log record's level and message, matches the message against a fixed list
of coordinator-failure keywords, maintains a sliding-window warning counter,
and on reaching the threshold writes `max_consecutive_errors` into the owning
`KafkaService`'s `consecutive_errors`.  We embed the handler state together
with the two `KafkaService` counters it reads/writes. -/

/-- A log record as seen by `emit`: its numeric level and its message,
embedded as a character list so that substring matching is explicit. -/
structure LogRecord where
  levelno : Nat
  message : List Char
deriving DecidableEq, Repr

/-- `logging.WARNING` numeric level. -/
def warningLevel : Nat := 30

/-- `self.warning_window = 30` seconds. -/
def warningWindow : Int := 30

/-- `self.warning_threshold = 10`. -/
def warningThreshold : Nat := 10

/-- The keyword list of `emit` (lines 34–41). -/
def coordinatorKeywords : List (List Char) :=
  ["NodeNotReadyError".toList, "coordinator".toList,
   "Heartbeat session expired".toList, "connection failed".toList,
   "timed out".toList, "RequestTimedOutError".toList]

/-- Python's `keyword in message` substring test on character lists. -/
def containsKeyword (k : List Char) : List Char → Bool
  | [] => k.isEmpty
  | c :: rest => k.isPrefixOf (c :: rest) || containsKeyword k rest

/-- The guard of `emit`: level at least WARNING and
`any(keyword in message for keyword in [...])`. -/
def isCoordinatorWarning (r : LogRecord) : Bool :=
  decide (warningLevel ≤ r.levelno)
    && coordinatorKeywords.any (fun k => containsKeyword k r.message)

/-- Handler state plus the owning service's error counters:
`warning_count`, `last_warning_time` (0 in `__init__`), and the
`KafkaService` fields `consecutive_errors` and `max_consecutive_errors`. -/
structure WarningHandlerState where
  warningCount : Nat
  lastWarningTime : Int
  consecutiveErrors : Nat
  maxConsecutiveErrors : Nat
deriving DecidableEq, Repr

/-- `KafkaCoordinatorWarningHandler.emit` (lines 27–63) at wall-clock time
`now`: on a matching warning, reset the window counter if more than
`warning_window` seconds passed since the last matching warning, increment
it, and if it reaches `warning_threshold`, set the service's
`consecutive_errors` to `max_consecutive_errors` and reset the counter. -/
def emit (s : WarningHandlerState) (r : LogRecord) (now : Int) : WarningHandlerState :=
  if isCoordinatorWarning r then
    let count0 := if now - s.lastWarningTime > warningWindow then 0 else s.warningCount
    let count1 := count0 + 1
    if warningThreshold ≤ count1 then
      { warningCount := 0, lastWarningTime := now,
        consecutiveErrors := s.maxConsecutiveErrors,
        maxConsecutiveErrors := s.maxConsecutiveErrors }
    else
      { s with warningCount := count1, lastWarningTime := now }
  else s

/-- Process a sequence of log records, each paired with its arrival time. -/
def emitAll (s : WarningHandlerState) : List (LogRecord × Int) → WarningHandlerState
  | [] => s
  | (r, t) :: rest => emitAll (emit s r t) rest

/-- Successive arrival gaps, starting from `prev`, are all at most
`warningWindow`. -/
def gapsWithin : Int → List Int → Prop
  | _, [] => True
  | prev, t :: ts => t - prev ≤ warningWindow ∧ gapsWithin t ts

/-! ## RedisService (`services/redis_service.py`)

The cache store: a Redis set `user_ids` of id strings plus one hash
`user:{id}` per user.  `add_user_data` does `SADD` + `HSET`;
`user_exists` is `SISMEMBER`; `get_user_data` is `HGETALL` (empty hash ⇒
`None`).  No method of this subsystem ever issues a delete. -/

/-- The fields stored in a `user:{id}` hash by `add_user_data`. -/
structure UserHash where
  consumer_token : String
  platform : String
  device_id : String
deriving DecidableEq, Repr

/-- The cache store state: the `user_ids` membership set and the per-user
hashes (`none` = the hash is absent/empty). -/
structure RedisStore where
  userIds : Finset Nat
  hashes : Nat → Option UserHash

/-- An empty cache. -/
def RedisStore.empty : RedisStore :=
  { userIds := ∅, hashes := fun _ => none }

/-- `RedisService.add_user_data` (lines 38–57): `SADD user_ids id` and
`HSET user:{id} {consumer_token, platform, device_id}`. -/
def add_user_data (uid : Nat) (token platform device : String)
    (s : RedisStore) : RedisStore :=
  { userIds := insert uid s.userIds,
    hashes := fun k => if k = uid then some ⟨token, platform, device⟩ else s.hashes k }

/-- `RedisService.user_exists` (lines 91–99): `SISMEMBER user_ids id`. -/
def user_exists (uid : Nat) (s : RedisStore) : Bool :=
  uid ∈ s.userIds

/-- `RedisService.get_user_data` (lines 59–89): `HGETALL user:{id}`; if the
hash is empty return `None`, else build the response dict. -/
def get_user_data (s : RedisStore) (uid : Nat) : Option Dict :=
  match s.hashes uid with
  | none => none
  | some h => some [("user_id", .vnat uid),
                    ("consumer_token", .vstr h.consumer_token),
                    ("platform", .vstr h.platform),
                    ("device_id", .vstr h.device_id)]

/-! ## Kafka change events and `process_message`
(`services/kafka_service.py`, lines 134–163) -/

/-- The `after` image of a Debezium-style change event: the fields read via
`after_data.get(...)`.  `user_id` is optional because the code first checks
`'user_id' in after_data`. -/
structure AfterData where
  user_id : Option Nat
  consumer_token : Option String
  platform : Option String
  device_id : Option String
deriving DecidableEq, Repr

/-- A Kafka message as `process_message` sees it: `value` is `None` for a
tombstone; otherwise `value['payload']['after']` is an optional record
(`after` is `None` for the delete half of a change event). -/
structure KafkaMessage where
  value : Option (Option AfterData)
deriving DecidableEq, Repr

/-- `KafkaService.process_message` (lines 134–163), acting on the cache and
the `consecutive_errors` counter: skip tombstones (`value is None`) with no
state change at all; otherwise, if the `after` image has a `user_id` and the
user is not yet in the cache, insert it; finally reset
`consecutive_errors` to 0 (every non-tombstone, non-raising path reaches
line 159). -/
def process_message (s : RedisStore) (errors : Nat) (m : KafkaMessage) :
    RedisStore × Nat :=
  match m.value with
  | none => (s, errors)
  | some after =>
    match after with
    | some a =>
      match a.user_id with
      | some uid =>
        if user_exists uid s then (s, 0)
        else (add_user_data uid (a.consumer_token.getD "") (a.platform.getD "")
                (a.device_id.getD "") s, 0)
      | none => (s, 0)
    | none => (s, 0)

/-! ## TrinoService and SyncService
(`services/trino_service.py`, `services/sync_service.py`)

The bulk source is a full table scan.  A scan outcome is either the row
list or a raised exception; `fetch_all_users` catches every exception and
returns the empty list (lines 57–59 of `trino_service.py`).  The
reconciler `initial_sync` then inserts each fetched user into the cache
unless it already exists, counting added and skipped records; its own
`try/except` re-raises whatever escapes its body. -/

/-- A user dict built by `fetch_all_users` from a scanned row:
`{"user_id": row[0], "consumer_token": row[1], "platform": row[2],
"device_id": row[3]}`.  The non-key columns may be SQL NULL. -/
structure TrinoUser where
  user_id : Nat
  consumer_token : Option String
  platform : Option String
  device_id : Option String
deriving DecidableEq, Repr

/-- `TrinoService.fetch_all_users` (lines 35–59), applied to the outcome of
the underlying scan: on success return the rows as user dicts; any raised
exception is caught and the empty list returned. -/
def fetch_all_users (scan : Except String (List TrinoUser)) : List TrinoUser :=
  match scan with
  | .ok users => users
  | .error _ => []

/-- The per-user loop body of `SyncService.initial_sync` (lines 32–43):
threading the cache and the `(added, skipped)` counters through the list of
fetched users. -/
def initial_sync_loop (s : RedisStore) (added skipped : Nat) :
    List TrinoUser → RedisStore × Nat × Nat
  | [] => (s, added, skipped)
  | u :: rest =>
    if user_exists u.user_id s then
      initial_sync_loop s added (skipped + 1) rest
    else
      initial_sync_loop
        (add_user_data u.user_id (u.consumer_token.getD "") (u.platform.getD "")
          (u.device_id.getD "") s)
        (added + 1) skipped rest

/-- `SyncService.initial_sync` (lines 11–53) applied to a scan outcome.
The result is `Except.error e` exactly when the body raises `e` to the
caller; the payload of `Except.ok` is the final cache together with the
`(added, skipped)` counts logged at line 46.  Note `fetch_all_users`
never raises (it catches internally), and `if not users: return` exits
early with nothing written, so the body never raises in this model. -/
def initial_sync (scan : Except String (List TrinoUser)) (s : RedisStore) :
    Except String (RedisStore × Nat × Nat) :=
  let users := fetch_all_users scan
  match users with
  | [] => .ok (s, 0, 0)
  | u :: rest => .ok (initial_sync_loop s 0 0 (u :: rest))

/-! ## RDSService (`services/rds_service.py`)

`get_user_by_id` selects `user_id, consumer_token, platform, device_id`
from the table but builds the returned dict from only three of them: the
`consumer_token` line (85) is commented out. -/

/-- A row of the RDS table as fetched by the `SELECT`: all four columns,
non-key columns nullable. -/
structure RdsRow where
  user_id : Nat
  consumer_token : Option String
  platform : Option String
  device_id : Option String
deriving DecidableEq, Repr

/-- `RDSService.get_user_by_id` (lines 63–95) applied to the fetched row
(`none` when the `WHERE user_id = %s LIMIT 1` query matched nothing):
builds `{'user_id': ..., 'platform': row['platform'] or '',
'device_id': row['device_id'] or ''}` — no `consumer_token` key. -/
def rds_get_user_by_id (row : Option RdsRow) : Option Dict :=
  match row with
  | none => none
  | some r => some [("user_id", .vnat r.user_id),
                    ("platform", .vstr (r.platform.getD "")),
                    ("device_id", .vstr (r.device_id.getD ""))]

/-! ## ParallelFetchService (`services/parallel_fetch_service.py`)

`fetch_user_parallel` races a Redis lookup against an RDS lookup with
`asyncio.wait(..., return_when=FIRST_COMPLETED)`.  The nondeterministic
outcome of the wait — which tasks are in the `done` set and in which order
the `for task in done` loop visits them — is passed as an explicit
parameter, and the fallback `asyncio.wait_for(task, timeout=2.0)` either
yields the task's result or times out, also an explicit parameter. -/

/-- Which tasks `asyncio.wait` returned as `done`, and, when both are
done, which one the `for task in done` iteration visits first. -/
inductive RaceDone where
  | redisOnly
  | rdsOnly
  | both (redisIterFirst : Bool)
deriving DecidableEq, Repr

/-- `self.fetch_user_from_redis` (lines 16–31): the Redis lookup with
`result['source'] = 'redis'` appended when a dict came back (exceptions
are caught and become `None`). -/
def fetch_user_from_redis (s : RedisStore) (uid : Nat) : Option Dict :=
  (get_user_data s uid).map (fun d => d ++ [("source", .vstr "redis")])

/-- `self.fetch_user_from_rds` (lines 33–48): the RDS lookup with
`result['source'] = 'rds'` appended when a dict came back (exceptions are
caught and become `None`). -/
def fetch_user_from_rds (row : Option RdsRow) : Option Dict :=
  (rds_get_user_by_id row).map (fun d => d ++ [("source", .vstr "rds")])

/-- The `for task in done` loop (lines 68–74): the first truthy result
among the done tasks' results, in iteration order. -/
def firstTruthyResult : List (Option Dict) → Option Dict
  | [] => none
  | r :: rest => if truthy r then r else firstTruthyResult rest

/-- `ParallelFetchService.fetch_user_parallel` (lines 50–97) given the two
tasks' eventual results, the outcome of the `FIRST_COMPLETED` wait, and
whether the fallback `wait_for` on the pending task times out: take the
first truthy result among `done`; if none, await the pending task under
the 2-second timeout and take its result if truthy; else `None`. -/
def fetch_user_parallel (redisRes rdsRes : Option Dict) (done : RaceDone)
    (fallbackTimesOut : Bool) : Option Dict :=
  let doneResults : List (Option Dict) :=
    match done with
    | .redisOnly => [redisRes]
    | .rdsOnly => [rdsRes]
    | .both true => [redisRes, rdsRes]
    | .both false => [rdsRes, redisRes]
  let pending : List (Option Dict) :=
    match done with
    | .redisOnly => [rdsRes]
    | .rdsOnly => [redisRes]
    | .both _ => []
  match firstTruthyResult doneResults with
  | some r => some r
  | none =>
    match pending with
    | [] => none
    | t :: _ => if fallbackTimesOut then none else if truthy t then t else none

/-- The per-id outcome of one `fetch_user_parallel` task inside
`asyncio.gather(..., return_exceptions=True)`: either an exception object
or the task's returned optional dict. -/
inductive FetchOutcome where
  | exc
  | res (r : Option Dict)
deriving DecidableEq, Repr

/-- The aggregation loop of `fetch_multiple_users_parallel` (lines
115–122) over `zip(user_ids, results)`: exceptions and falsy results go to
`not_found`, truthy dicts to `found_users`, preserving input order within
each output list. -/
def gather_users : List (Nat × FetchOutcome) → List Dict × List Nat
  | [] => ([], [])
  | (uid, o) :: rest =>
    let (found, notFound) := gather_users rest
    match o with
    | .exc => (found, uid :: notFound)
    | .res r =>
      match r with
      | some d => if d.isEmpty then (found, uid :: notFound) else (d :: found, notFound)
      | none => (found, uid :: notFound)

/-! ## Theorems -/

/-- C1, counterexample.  Two concurrent `switch_to_rds` calls from the
initial Lake state, interleaved guard–guard–commit–commit (T2's guard runs
while T1's switch is in flight): both calls complete with status
`"switched"` — the later attempt is not rejected with a `SwitchConflict`
(no such status exists anywhere in `datasource_service.py`), refuting the
claimed mutual exclusion. -/
theorem switch_concurrent_no_conflict_cex :
    twoConcurrentSwitchToRds 1 2 ⟨DataSource.lake, none⟩ =
      ("switched", "switched", ⟨DataSource.rds, some 2⟩) := by
  decide

/-- C1, amended.  `DataSourceService` has no in-flight-switch guard: a
switch call only ever returns `"already_active"` or `"switched"` (never a
conflict status), and in the unsynchronized guard–guard–commit–commit
interleaving of two concurrent `switch_to_rds` calls from a non-RDS state,
both calls report `"switched"` and the final state carries the second
caller's timestamp. -/
theorem switch_no_mutual_exclusion (now t1 t2 : Int) (s : DataSourceState)
    (h : s.currentSource ≠ DataSource.rds) :
    ((switch_to_rds now s).1 = "already_active" ∨ (switch_to_rds now s).1 = "switched") ∧
    ((switch_to_lake now s).1 = "already_active" ∨ (switch_to_lake now s).1 = "switched") ∧
    twoConcurrentSwitchToRds t1 t2 s =
      ("switched", "switched", ⟨DataSource.rds, some t2⟩) := by
  refine ⟨?_, ?_, ?_⟩
  · unfold switch_to_rds; split <;> simp
  · unfold switch_to_lake; split <;> simp
  · unfold twoConcurrentSwitchToRds switch_to_rds_guard switch_to_rds_commit
    simp [h]

/-- C1, witness for the amended theorem at the initial state. -/
theorem switch_no_mutual_exclusion_witness :
    ((switch_to_rds 5 DataSourceState.init).1 = "already_active" ∨
      (switch_to_rds 5 DataSourceState.init).1 = "switched") ∧
    ((switch_to_lake 5 DataSourceState.init).1 = "already_active" ∨
      (switch_to_lake 5 DataSourceState.init).1 = "switched") ∧
    twoConcurrentSwitchToRds 1 2 DataSourceState.init =
      ("switched", "switched", ⟨DataSource.rds, some 2⟩) :=
  switch_no_mutual_exclusion 5 1 2 DataSourceState.init (by decide)

/-- C5: invoking the switch matching the current state returns
`"already_active"` and leaves the whole router state — current source and
`_switch_timestamp` — unchanged; in particular the second of two
consecutive identical switches does. -/
theorem switch_idempotent (now t2 : Int) (s : DataSourceState) :
    (s.currentSource = DataSource.rds → switch_to_rds now s = ("already_active", s)) ∧
    (s.currentSource = DataSource.lake → switch_to_lake now s = ("already_active", s)) ∧
    switch_to_rds t2 (switch_to_rds now s).2 = ("already_active", (switch_to_rds now s).2) ∧
    switch_to_lake t2 (switch_to_lake now s).2 = ("already_active", (switch_to_lake now s).2) := by
  refine ⟨fun h => by simp [switch_to_rds, h], fun h => by simp [switch_to_lake, h], ?_, ?_⟩
  · unfold switch_to_rds; split <;> simp_all
  · unfold switch_to_lake; split <;> simp_all

/-- C5, witness: a repeated `switch_to_rds` from a state already on RDS,
and the double-switch conclusions, at concrete inputs. -/
theorem switch_idempotent_witness :
    switch_to_rds 7 ⟨DataSource.rds, some 3⟩ =
      ("already_active", ⟨DataSource.rds, some 3⟩) ∧
    switch_to_lake 7 ⟨DataSource.lake, some 3⟩ =
      ("already_active", ⟨DataSource.lake, some 3⟩) ∧
    switch_to_rds 9 (switch_to_rds 7 DataSourceState.init).2 =
      ("already_active", (switch_to_rds 7 DataSourceState.init).2) :=
  ⟨(switch_idempotent 7 9 ⟨DataSource.rds, some 3⟩).1 rfl,
   (switch_idempotent 7 9 ⟨DataSource.lake, some 3⟩).2.1 rfl,
   (switch_idempotent 7 9 DataSourceState.init).2.2.1⟩

/-- C7, counterexample.  A failing bulk scan does not make `initial_sync`
raise: `fetch_all_users` catches the error and returns `[]`, so
`initial_sync` completes normally with the cache untouched. -/
theorem sync_scan_failure_cex :
    initial_sync (.error "connection refused") RedisStore.empty =
      .ok (RedisStore.empty, 0, 0) := rfl

/-- C7, amended.  When the bulk scan fails, `fetch_all_users` swallows the
error and returns the empty list, so `initial_sync` completes normally
(raising nothing) with the cache unchanged and counts (0, 0); on a
successful scan it completes normally reporting the added/skipped counts
of the reconciliation loop. -/
theorem sync_swallows_scan_failure (e : String) (s : RedisStore)
    (users : List TrinoUser) :
    initial_sync (.error e) s = .ok (s, 0, 0) ∧
    initial_sync (.ok users) s = .ok (initial_sync_loop s 0 0 users) := by
  refine ⟨rfl, ?_⟩
  cases users <;> rfl

/-- C8, counterexample.  The state reached by `start_consuming` with no
prior `connect` (consumer `None`, running, zero errors, failover not
triggered): the spec's formula `running && consecutiveErrors < max &&
!failoverTriggered` is true, yet `health_check` returns false because of
its additional `self.consumer is not None` conjunct. -/
theorem health_check_extra_conjunct_cex :
    health_check ⟨false, true, 0, 3, false⟩ = false ∧
    healthCheckSpec ⟨false, true, 0, 3, false⟩ = true := by
  decide

/-- C8, amended.  `health_check` returns true iff the consumer object
exists (`consumer is not None`) and `running` holds and
`consecutive_errors < max_consecutive_errors` and `_failover_triggered`
is false — the consumer-existence conjunct also affects the result. -/
theorem health_check_characterization (s : KafkaState) :
    health_check s = true ↔
      s.consumerConnected = true ∧ s.running = true ∧
      s.consecutiveErrors < s.maxConsecutiveErrors ∧
      s.failoverTriggered = false := by
  simp [health_check, and_assoc]

/-- C10: a record resolved from RDS carries exactly the keys `user_id`,
`platform`, `device_id`, and in particular no `consumer_token` key — even
when the underlying row's `consumer_token` column is populated. -/
theorem rds_record_omits_token (r : RdsRow) (tok : String)
    (_h : r.consumer_token = some tok) :
    ∃ d, rds_get_user_by_id (some r) = some d ∧
      d.map Prod.fst = ["user_id", "platform", "device_id"] ∧
      dget d "consumer_token" = none := by
  refine ⟨_, rfl, rfl, ?_⟩
  simp [dget]

/-- C10, witness: a row whose `consumer_token` column is populated. -/
theorem rds_record_omits_token_witness :
    ∃ d, rds_get_user_by_id (some ⟨1, some "tok", some "ios", some "dev"⟩) = some d ∧
      d.map Prod.fst = ["user_id", "platform", "device_id"] ∧
      dget d "consumer_token" = none :=
  rds_record_omits_token ⟨1, some "tok", some "ios", some "dev"⟩ "tok" rfl

/-! ### Cache preservation lemmas (shared by the sync and ingestion claims) -/

/-- `add_user_data` never removes a member from the `user_ids` set. -/
theorem user_exists_add_of (uid v : Nat) (t p d : String) (s : RedisStore)
    (h : user_exists uid s = true) :
    user_exists uid (add_user_data v t p d s) = true := by
  simp only [user_exists, add_user_data, decide_eq_true_eq, Finset.mem_insert] at h ⊢
  exact Or.inr h

/-- `add_user_data` makes its own id a member. -/
theorem user_exists_add_self (v : Nat) (t p d : String) (s : RedisStore) :
    user_exists v (add_user_data v t p d s) = true := by
  simp [user_exists, add_user_data]

/-- `add_user_data` leaves every other user's hash untouched. -/
theorem hashes_add_ne (uid v : Nat) (t p d : String) (s : RedisStore)
    (h : uid ≠ v) : (add_user_data v t p d s).hashes uid = s.hashes uid := by
  simp [add_user_data, h]

/-- The reconciliation loop preserves existing cache entries: an id already
in the set stays in the set, and its hash is never rewritten (the loop only
adds users whose existence check failed). -/
theorem initial_sync_loop_preserves (users : List TrinoUser) (s : RedisStore)
    (a k uid : Nat) (h : user_exists uid s = true) :
    user_exists uid (initial_sync_loop s a k users).1 = true ∧
    (initial_sync_loop s a k users).1.hashes uid = s.hashes uid := by
  induction users generalizing s a k with
  | nil => exact ⟨h, rfl⟩
  | cons u rest ih =>
    cases hex : user_exists u.user_id s with
    | true => simpa [initial_sync_loop, hex] using ih s a (k + 1) h
    | false =>
      have hne : uid ≠ u.user_id := by
        intro he; rw [he] at h; rw [h] at hex; cases hex
      have h' : user_exists uid
          (add_user_data u.user_id (u.consumer_token.getD "") (u.platform.getD "")
            (u.device_id.getD "") s) = true :=
        user_exists_add_of uid u.user_id _ _ _ s h
      have := ih (add_user_data u.user_id (u.consumer_token.getD "")
        (u.platform.getD "") (u.device_id.getD "") s) (a + 1) k h'
      simpa [initial_sync_loop, hex, hashes_add_ne uid u.user_id _ _ _ s hne]
        using this

/-- After the reconciliation loop, every scanned user's id is in the cache. -/
theorem initial_sync_loop_covers (users : List TrinoUser) (s : RedisStore)
    (a k : Nat) :
    ∀ u ∈ users, user_exists u.user_id (initial_sync_loop s a k users).1 = true := by
  induction users generalizing s a k with
  | nil => intro u hu; cases hu
  | cons v rest ih =>
    intro u hu
    cases hex : user_exists v.user_id s with
    | true =>
      rcases List.mem_cons.mp hu with h | h
      · subst h
        simpa [initial_sync_loop, hex] using
          (initial_sync_loop_preserves rest s a (k + 1) u.user_id hex).1
      · simpa [initial_sync_loop, hex] using ih s a (k + 1) u h
    | false =>
      rcases List.mem_cons.mp hu with h | h
      · subst h
        have h' := user_exists_add_self u.user_id (u.consumer_token.getD "")
          (u.platform.getD "") (u.device_id.getD "") s
        simpa [initial_sync_loop, hex] using
          (initial_sync_loop_preserves rest _ (a + 1) k u.user_id h').1
      · simpa [initial_sync_loop, hex] using ih _ (a + 1) k u h

/-- C6: whatever dataset the bulk scan returns, after `initial_sync`
completes, every id occurring in the dataset passes the cache existence
check. -/
theorem full_sync_covers_dataset (users : List TrinoUser) (s st : RedisStore)
    (a k : Nat) (h : initial_sync (.ok users) s = .ok (st, a, k)) :
    ∀ u ∈ users, user_exists u.user_id st = true := by
  cases users with
  | nil => intro u hu; cases hu
  | cons v rest =>
    have hloop : initial_sync_loop s 0 0 (v :: rest) = (st, a, k) := by
      simpa [initial_sync, fetch_all_users] using h
    intro u hu
    have := initial_sync_loop_covers (v :: rest) s 0 0 u hu
    rwa [hloop] at this

/-- C6, witness: syncing the one-element dataset `[user 1]` into the empty
cache makes id 1 exist. -/
theorem full_sync_covers_dataset_witness :
    user_exists 1 (add_user_data 1 "" "" "" RedisStore.empty) = true :=
  full_sync_covers_dataset [⟨1, none, none, none⟩] RedisStore.empty
    (add_user_data 1 "" "" "" RedisStore.empty) 1 0 rfl
    ⟨1, none, none, none⟩ (List.mem_singleton.mpr rfl)

/-- C9: the cache is append/update-only under this subsystem.  A tombstone
message (`value is None`) leaves the cache and the error counter exactly
unchanged; `process_message` never removes an existing id and never
rewrites an existing user's hash; and the reconciliation loop likewise
preserves every existing entry.  No code path of either component deletes
a cache entry. -/
theorem cache_append_only (s : RedisStore) (errors : Nat) (m : KafkaMessage)
    (uid : Nat) (users : List TrinoUser) (a k : Nat) :
    (m.value = none → process_message s errors m = (s, errors)) ∧
    (user_exists uid s = true →
      user_exists uid (process_message s errors m).1 = true ∧
      (process_message s errors m).1.hashes uid = s.hashes uid) ∧
    (user_exists uid s = true →
      user_exists uid (initial_sync_loop s a k users).1 = true ∧
      (initial_sync_loop s a k users).1.hashes uid = s.hashes uid) := by
  refine ⟨fun h => by simp [process_message, h], fun h => ?_,
    fun h => initial_sync_loop_preserves users s a k uid h⟩
  rcases m with ⟨_ | ⟨_ | av⟩⟩
  · exact ⟨h, rfl⟩
  · exact ⟨h, rfl⟩
  · rcases av with ⟨uidv | v, tok, plat, dev⟩
    · exact ⟨h, rfl⟩
    · cases hex : user_exists v s with
      | true =>
        refine ⟨?_, ?_⟩
        · simpa [process_message, hex] using h
        · simp [process_message, hex]
      | false =>
        have hne : uid ≠ v := by
          intro he; rw [he] at h; rw [h] at hex; cases hex
        exact ⟨by simpa [process_message, hex] using
            user_exists_add_of uid v _ _ _ s h,
          by simpa [process_message, hex] using
            hashes_add_ne uid v _ _ _ s hne⟩

/-- C9, witness: a cache holding user 1, a tombstone message, a change
event for user 2, and a one-row bulk dataset — user 1's entry survives all
of them untouched. -/
theorem cache_append_only_witness :
    (process_message (add_user_data 1 "a" "b" "c" RedisStore.empty) 4 ⟨none⟩ =
      (add_user_data 1 "a" "b" "c" RedisStore.empty, 4)) ∧
    (user_exists 1 (process_message (add_user_data 1 "a" "b" "c" RedisStore.empty)
        4 ⟨some (some ⟨some 2, none, none, none⟩)⟩).1 = true ∧
      (process_message (add_user_data 1 "a" "b" "c" RedisStore.empty)
        4 ⟨some (some ⟨some 2, none, none, none⟩)⟩).1.hashes 1 =
      (add_user_data 1 "a" "b" "c" RedisStore.empty).hashes 1) ∧
    (user_exists 1 (initial_sync_loop (add_user_data 1 "a" "b" "c" RedisStore.empty)
        0 0 [⟨2, none, none, none⟩]).1 = true ∧
      (initial_sync_loop (add_user_data 1 "a" "b" "c" RedisStore.empty)
        0 0 [⟨2, none, none, none⟩]).1.hashes 1 =
      (add_user_data 1 "a" "b" "c" RedisStore.empty).hashes 1) :=
  ⟨(cache_append_only (add_user_data 1 "a" "b" "c" RedisStore.empty) 4 ⟨none⟩ 1
      [⟨2, none, none, none⟩] 0 0).1 rfl,
   (cache_append_only (add_user_data 1 "a" "b" "c" RedisStore.empty) 4
      ⟨some (some ⟨some 2, none, none, none⟩)⟩ 1 [⟨2, none, none, none⟩] 0 0).2.1
      (by simp [user_exists, add_user_data]),
   (cache_append_only (add_user_data 1 "a" "b" "c" RedisStore.empty) 4 ⟨none⟩ 1
      [⟨2, none, none, none⟩] 0 0).2.2
      (by simp [user_exists, add_user_data])⟩

/-- C3: in Failover mode (the racing path), `fetch_user_parallel` returns
a record iff at least one of the cache (Redis hash present) or the
relational store (row present) has the user — for every outcome of the
`FIRST_COMPLETED` wait, provided the fallback wait does not time out
(the spec's bounded-time proviso, under which both lookups complete). -/
theorem race_fetch_iff (s : RedisStore) (rds : Nat → Option RdsRow)
    (uid : Nat) (done : RaceDone) :
    (fetch_user_parallel (fetch_user_from_redis s uid)
        (fetch_user_from_rds (rds uid)) done false).isSome = true ↔
      ((s.hashes uid).isSome = true ∨ (rds uid).isSome = true) := by
  rcases done with _ | _ | b
  all_goals try cases b
  all_goals cases hr : s.hashes uid
  all_goals cases hd : rds uid
  all_goals
    simp [fetch_user_parallel, fetch_user_from_redis, fetch_user_from_rds,
      get_user_data, rds_get_user_by_id, firstTruthyResult, truthy, hr, hd]

/-- The id discipline of a per-id race result inside the batch fetch: a
non-exception, non-`None` outcome is a dict whose `user_id` entry is the
requested id (which is how `fetch_user_parallel` builds its results). -/
def outcomeIdOk (p : Nat × FetchOutcome) : Bool :=
  match p.2 with
  | .res (some d) => dget d "user_id" == some (.vnat p.1)
  | _ => true

/-- C4: the batch fetch partitions its input.  The `user_id` entries of
`found` together with the ids of `not_found` are a permutation of the
input ids (every input id lands in exactly one of the two collections,
counting multiplicity), an id whose race raised an exception lands in
`not_found` rather than propagating, and the two output sizes add up to
the input size. -/
theorem gather_partition (pairs : List (Nat × FetchOutcome))
    (hid : ∀ p ∈ pairs, outcomeIdOk p = true) :
    ((gather_users pairs).1.map (fun d => dget d "user_id") ++
      (gather_users pairs).2.map (fun uid => some (DVal.vnat uid))).Perm
      (pairs.map (fun p => some (DVal.vnat p.1))) ∧
    (∀ p ∈ pairs, p.2 = FetchOutcome.exc → p.1 ∈ (gather_users pairs).2) ∧
    (gather_users pairs).1.length + (gather_users pairs).2.length =
      pairs.length := by
  induction pairs with
  | nil => exact ⟨by simp [gather_users], by simp, by simp [gather_users]⟩
  | cons p rest ih =>
    obtain ⟨uid, o⟩ := p
    rcases hg : gather_users rest with ⟨f, nf⟩
    obtain ⟨ihperm, ihmem, ihlen⟩ :=
      ih (fun q hq => hid q (List.mem_cons_of_mem _ hq))
    rw [hg] at ihperm ihmem ihlen
    dsimp only at ihperm ihmem ihlen
    have notFoundStep :
        gather_users ((uid, o) :: rest) = (f, uid :: nf) →
        ((gather_users ((uid, o) :: rest)).1.map (fun d => dget d "user_id") ++
          (gather_users ((uid, o) :: rest)).2.map
            (fun u => some (DVal.vnat u))).Perm
          (((uid, o) :: rest).map (fun q => some (DVal.vnat q.1))) ∧
        (∀ q ∈ (uid, o) :: rest, q.2 = FetchOutcome.exc →
          q.1 ∈ (gather_users ((uid, o) :: rest)).2) ∧
        (gather_users ((uid, o) :: rest)).1.length +
          (gather_users ((uid, o) :: rest)).2.length =
          ((uid, o) :: rest).length := by
      intro hstep
      rw [hstep]
      refine ⟨?_, ?_, ?_⟩
      · simpa using List.perm_middle.trans (ihperm.cons (some (DVal.vnat uid)))
      · intro q hq hqe
        rcases List.mem_cons.mp hq with h | h
        · rw [h]; exact List.mem_cons_self _ _
        · exact List.mem_cons_of_mem _ (ihmem q h hqe)
      · simp only [List.length_cons]; omega
    cases o with
    | exc => exact notFoundStep (by simp [gather_users, hg])
    | res r =>
      cases r with
      | none => exact notFoundStep (by simp [gather_users, hg])
      | some d =>
        cases hde : d.isEmpty with
        | true => exact notFoundStep (by simp [gather_users, hg, hde])
        | false =>
          have hdg : dget d "user_id" = some (DVal.vnat uid) := by
            have := hid (uid, .res (some d)) (List.mem_cons_self _ _)
            simpa [outcomeIdOk] using this
          have hstep : gather_users ((uid, FetchOutcome.res (some d)) :: rest) =
              (d :: f, nf) := by
            simp [gather_users, hg, hde]
          rw [hstep]
          refine ⟨?_, ?_, ?_⟩
          · simp only [List.map_cons, List.cons_append, hdg]
            exact ihperm.cons _
          · intro q hq hqe
            rcases List.mem_cons.mp hq with h | h
            · rw [h] at hqe; cases hqe
            · exact ihmem q h hqe
          · simp only [List.length_cons]; omega

/-- C4, witness: one id found in the cache, one whose race raised, one not
found anywhere. -/
theorem gather_partition_witness :
    (((gather_users [(1, .res (some [("user_id", .vnat 1)])), (2, .exc),
        (3, .res none)]).1.map (fun d => dget d "user_id") ++
      (gather_users [(1, .res (some [("user_id", .vnat 1)])), (2, .exc),
        (3, .res none)]).2.map (fun uid => some (DVal.vnat uid))).Perm
      ([(1, FetchOutcome.res (some [("user_id", DVal.vnat 1)])), (2, .exc),
        (3, .res none)].map (fun p => some (DVal.vnat p.1)))) ∧
    (∀ p ∈ [(1, FetchOutcome.res (some [("user_id", DVal.vnat 1)])), (2, .exc),
        (3, .res none)], p.2 = FetchOutcome.exc →
      p.1 ∈ (gather_users [(1, .res (some [("user_id", .vnat 1)])), (2, .exc),
        (3, .res none)]).2) ∧
    (gather_users [(1, .res (some [("user_id", .vnat 1)])), (2, .exc),
        (3, .res none)]).1.length +
      (gather_users [(1, .res (some [("user_id", .vnat 1)])), (2, .exc),
        (3, .res none)]).2.length = 3 :=
  gather_partition [(1, .res (some [("user_id", .vnat 1)])), (2, .exc),
    (3, .res none)] (by decide)

/-! ### Anomaly-window lemmas -/

/-- A matching warning at most `warningWindow` after the previous one,
with the incremented counter still below the threshold: the counter just
increments and the timestamp advances. -/
theorem emit_step_no_trigger (s : WarningHandlerState) (r : LogRecord) (t : Int)
    (hm : isCoordinatorWarning r = true)
    (hgap : t - s.lastWarningTime ≤ warningWindow)
    (hlt : s.warningCount + 1 < warningThreshold) :
    emit s r t = { warningCount := s.warningCount + 1, lastWarningTime := t,
                   consecutiveErrors := s.consecutiveErrors,
                   maxConsecutiveErrors := s.maxConsecutiveErrors } := by
  have h1 : ¬ (t - s.lastWarningTime > warningWindow) := by omega
  have h2 : ¬ (warningThreshold ≤ s.warningCount + 1) := by omega
  simp [emit, hm, h1, h2]

/-- A matching warning at most `warningWindow` after the previous one that
brings the counter to the threshold: the service's error counter is forced
to its maximum and the window counter resets. -/
theorem emit_step_trigger (s : WarningHandlerState) (r : LogRecord) (t : Int)
    (hm : isCoordinatorWarning r = true)
    (hgap : t - s.lastWarningTime ≤ warningWindow)
    (hge : warningThreshold ≤ s.warningCount + 1) :
    emit s r t = { warningCount := 0, lastWarningTime := t,
                   consecutiveErrors := s.maxConsecutiveErrors,
                   maxConsecutiveErrors := s.maxConsecutiveErrors } := by
  have h1 : ¬ (t - s.lastWarningTime > warningWindow) := by omega
  simp [emit, hm, h1, hge]

/-- The first matching warning seen from a zeroed window counter sets the
counter to 1 whether or not the window had lapsed. -/
theorem emit_first (s : WarningHandlerState) (r : LogRecord) (t : Int)
    (hm : isCoordinatorWarning r = true) (h0 : s.warningCount = 0) :
    emit s r t = { warningCount := 1, lastWarningTime := t,
                   consecutiveErrors := s.consecutiveErrors,
                   maxConsecutiveErrors := s.maxConsecutiveErrors } := by
  have h2 : ¬ (warningThreshold ≤ (0 : Nat) + 1) := by norm_num [warningThreshold]
  by_cases hgap : t - s.lastWarningTime > warningWindow
  · simp [emit, hm, hgap, h2]
  · simp [emit, hm, hgap, h0, h2]

/-- If any two of the given times are within `warningWindow` of each other,
then walking the list from a member start keeps successive gaps within the
window. -/
theorem pairwise_gapsWithin (ts : List Int) (d : Int) (all : List Int)
    (hd : d ∈ all) (hts : ∀ x ∈ ts, x ∈ all)
    (hpair : ∀ a ∈ all, ∀ b ∈ all, b - a ≤ warningWindow) :
    gapsWithin d ts := by
  induction ts generalizing d with
  | nil => trivial
  | cons t ts' ih =>
    exact ⟨hpair d hd t (hts t (List.mem_cons_self _ _)),
      ih t (hts t (List.mem_cons_self _ _))
        (fun x hx => hts x (List.mem_cons_of_mem _ hx))⟩

/-- Feeding exactly enough matching warnings (successive gaps within the
window) to reach the threshold forces `consecutive_errors` to the maximum. -/
theorem emitAll_triggers (evs : List (LogRecord × Int)) (s : WarningHandlerState)
    (hne : evs ≠ [])
    (hmatch : ∀ e ∈ evs, isCoordinatorWarning e.1 = true)
    (hgaps : gapsWithin s.lastWarningTime (evs.map Prod.snd))
    (hcount : s.warningCount + evs.length = warningThreshold) :
    (emitAll s evs).consecutiveErrors = s.maxConsecutiveErrors := by
  revert hne hmatch hgaps hcount
  induction evs generalizing s with
  | nil => intro hne _ _ _; exact absurd rfl hne
  | cons e rest ih =>
    obtain ⟨r, t⟩ := e
    intro _ hmatch hgaps hcount
    obtain ⟨hgap, hgaps'⟩ := hgaps
    cases rest with
    | nil =>
      have hstep := emit_step_trigger s r t
        (hmatch (r, t) (List.mem_cons_self _ _)) hgap (by simp at hcount; omega)
      simp [emitAll, hstep]
    | cons e2 rest2 =>
      have hlt : s.warningCount + 1 < warningThreshold := by
        simp [List.length_cons] at hcount; omega
      have hstep := emit_step_no_trigger s r t
        (hmatch (r, t) (List.mem_cons_self _ _)) hgap hlt
      have hres := ih { warningCount := s.warningCount + 1, lastWarningTime := t,
                        consecutiveErrors := s.consecutiveErrors,
                        maxConsecutiveErrors := s.maxConsecutiveErrors }
        (by simp)
        (fun q hq => hmatch q (List.mem_cons_of_mem _ hq))
        hgaps'
        (by simp [List.length_cons] at hcount ⊢; omega)
      calc (emitAll s ((r, t) :: e2 :: rest2)).consecutiveErrors
          = (emitAll (emit s r t) (e2 :: rest2)).consecutiveErrors := rfl
        _ = s.maxConsecutiveErrors := by rw [hstep]; exact hres

/-- C2: (a) ten warning-class signals matching the connectivity-failure
keywords, all arriving within the 30-second window of each other, starting
from a zeroed window counter and a zero explicit error count, force
`consecutive_errors` to `max_consecutive_errors` (so the next health
evaluation fails); (b) a matching signal arriving more than 30 seconds
after the previous one resets the window count to 1, not to the prior
count plus one. -/
theorem anomaly_window_behaviour :
    (∀ (s : WarningHandlerState) (e0 : LogRecord × Int)
        (rest : List (LogRecord × Int)),
      s.warningCount = 0 → s.consecutiveErrors = 0 →
      (∀ e ∈ e0 :: rest, isCoordinatorWarning e.1 = true) →
      (∀ a ∈ e0 :: rest, ∀ b ∈ e0 :: rest, b.2 - a.2 ≤ warningWindow) →
      (e0 :: rest).length = warningThreshold →
      (emitAll s (e0 :: rest)).consecutiveErrors = s.maxConsecutiveErrors) ∧
    (∀ (s : WarningHandlerState) (r : LogRecord) (now : Int),
      isCoordinatorWarning r = true →
      now - s.lastWarningTime > warningWindow →
      (emit s r now).warningCount = 1) := by
  constructor
  · intro s e0 rest h0 _herr hmatch hpair hlen
    obtain ⟨r0, t0⟩ := e0
    have hrestlen : rest.length = 9 := by
      simp [warningThreshold] at hlen; omega
    have hrest_ne : rest ≠ [] := by
      intro h; rw [h] at hrestlen; simp at hrestlen
    have hstep := emit_first s r0 t0
      (hmatch (r0, t0) (List.mem_cons_self _ _)) h0
    have hgaps : gapsWithin t0 (rest.map Prod.snd) := by
      refine pairwise_gapsWithin (rest.map Prod.snd) t0
        (((r0, t0) :: rest).map Prod.snd) ?_ ?_ ?_
      · exact List.mem_cons_self _ _
      · intro x hx
        simp only [List.map_cons]
        exact List.mem_cons_of_mem _ hx
      · intro a ha b hb
        obtain ⟨qa, hqa, rfl⟩ := List.mem_map.mp ha
        obtain ⟨qb, hqb, rfl⟩ := List.mem_map.mp hb
        exact hpair qa hqa qb hqb
    have hres := emitAll_triggers rest
      { warningCount := 1, lastWarningTime := t0,
        consecutiveErrors := s.consecutiveErrors,
        maxConsecutiveErrors := s.maxConsecutiveErrors }
      hrest_ne (fun q hq => hmatch q (List.mem_cons_of_mem _ hq)) hgaps
      (by simp [hrestlen, warningThreshold])
    calc (emitAll s ((r0, t0) :: rest)).consecutiveErrors
        = (emitAll (emit s r0 t0) rest).consecutiveErrors := rfl
      _ = s.maxConsecutiveErrors := by rw [hstep]; exact hres
  · intro s r now hm hgap
    have h2 : ¬ (warningThreshold ≤ (0 : Nat) + 1) := by
      norm_num [warningThreshold]
    simp [emit, hm, hgap, h2]

/-- C2, witness: ten `"coordinator"`-keyword warnings at one-second gaps
trip the failover counter to the maximum 3; a single matching warning 40
seconds after the previous one resets the window count to 1 (not 6). -/
theorem anomaly_window_behaviour_witness :
    (emitAll ⟨0, 0, 0, 3⟩
      [(⟨30, "coordinator".toList⟩, 1), (⟨30, "coordinator".toList⟩, 2),
       (⟨30, "coordinator".toList⟩, 3), (⟨30, "coordinator".toList⟩, 4),
       (⟨30, "coordinator".toList⟩, 5), (⟨30, "coordinator".toList⟩, 6),
       (⟨30, "coordinator".toList⟩, 7), (⟨30, "coordinator".toList⟩, 8),
       (⟨30, "coordinator".toList⟩, 9),
       (⟨30, "coordinator".toList⟩, 10)]).consecutiveErrors = 3 ∧
    (emit ⟨5, 0, 0, 3⟩ ⟨30, "coordinator".toList⟩ 40).warningCount = 1 :=
  ⟨anomaly_window_behaviour.1 ⟨0, 0, 0, 3⟩ (⟨30, "coordinator".toList⟩, 1)
      [(⟨30, "coordinator".toList⟩, 2), (⟨30, "coordinator".toList⟩, 3),
       (⟨30, "coordinator".toList⟩, 4), (⟨30, "coordinator".toList⟩, 5),
       (⟨30, "coordinator".toList⟩, 6), (⟨30, "coordinator".toList⟩, 7),
       (⟨30, "coordinator".toList⟩, 8), (⟨30, "coordinator".toList⟩, 9),
       (⟨30, "coordinator".toList⟩, 10)]
      rfl rfl (by decide) (by decide) rfl,
   anomaly_window_behaviour.2 ⟨5, 0, 0, 3⟩ ⟨30, "coordinator".toList⟩ 40
      (by decide) (by decide)⟩

end ConsumerReferral
